import Mathlib

/-!
# Overview page of the wallet GUI (`src/qt/overviewpage.cpp`)

A shallow embedding of `OverviewPage` (balance labels, out-of-sync warning,
price lookup) as explicit state passing.

* `qint64` values are `Int`; the one arithmetic expression of the file
  (the total of four balances) wraps to 64 bits (`add64`).
* `uint` values are `Nat`; the one subtraction wraps to 32 bits (`uintSub`).
* `double` is a type parameter `D`; what the file needs of it (the constant
  `0`, the test `x > 0`, `nPrice * currentBalance / COIN`, `QString::number`)
  is supplied by `Externals`, together with the other functions and
  constants that are declared outside this file.
* Pointers to external objects (`WalletModel *`, `OptionsModel *`) are
  `Option`s holding the value the getters return at the time of the call; a
  null dereference makes the operation return `none`.
* The network side (the global `manager`, the reply object) is an append-only
  list of `Effect`s.
* The clock is an argument: each `sendRequest()` reads it once.

Not embedded: `TxViewDelegate::paint` and `sizeHint`, `handleTransactionClicked`,
the destructor, and the widget attributes, sort settings and `clicked`
connection that the constructor and `setModel` set on the list view.
-/

namespace Piecoin

/-! ## Machine integers -/

/-- Two's complement wrap of an integer to the range of `qint64`. -/
def wrap64 (x : Int) : Int := (x + 2 ^ 63) % 2 ^ 64 - 2 ^ 63

/-- Addition of two `qint64`. -/
def add64 (a b : Int) : Int := wrap64 (a + b)

/-- The values of `qint64`. -/
def inInt64 (x : Int) : Prop := -(2 ^ 63) ≤ x ∧ x < 2 ^ 63

instance (x : Int) : Decidable (inInt64 x) := by unfold inInt64; infer_instance

/-- Subtraction of two `uint` (32 bits, wraps around). -/
def uintSub (a b : Nat) : Nat := (a % 2 ^ 32 + (2 ^ 32 - b % 2 ^ 32)) % 2 ^ 32

/-! ## Qt values -/

abbrev QUrl := String
abbrev QByteArray := List Nat

/-- A `QJsonValue` over doubles `D`; `undefined` is what `operator[]` gives for
a missing key. -/
inductive QJsonValue (D : Type) where
  | undefined : QJsonValue D
  | null : QJsonValue D
  | bool (b : Bool) : QJsonValue D
  | double (d : D) : QJsonValue D
  | string (s : String) : QJsonValue D
  | array (items : List (QJsonValue D)) : QJsonValue D
  | object (members : List (String × QJsonValue D)) : QJsonValue D

/-- A `QJsonObject`: its members, by key. -/
abbrev QJsonObject (D : Type) := List (String × QJsonValue D)

/-- A `QJsonDocument` as `QJsonDocument::fromJson` returns it. -/
inductive QJsonDocument (D : Type) where
  | null : QJsonDocument D
  | array (items : List (QJsonValue D)) : QJsonDocument D
  | object (o : QJsonObject D) : QJsonDocument D

/-- Model of `QJsonDocument::object()`: the empty object when the document holds none. -/
def QJsonDocument.toObject {D : Type} : QJsonDocument D → QJsonObject D
  | .object o => o
  | _ => []

/-- Model of `QJsonObject::contains(key)`. -/
def QJsonObject.contains {D : Type} (o : QJsonObject D) (key : String) : Bool :=
  o.any (fun kv => kv.1 == key)

/-- Model of `QJsonObject::operator[](key)`. -/
def QJsonObject.value {D : Type} (o : QJsonObject D) (key : String) : QJsonValue D :=
  match o.find? (fun kv => kv.1 == key) with
  | some kv => kv.2
  | none => .undefined

/-- Model of `QJsonValue::isObject()`. -/
def QJsonValue.isObject {D : Type} : QJsonValue D → Bool
  | .object _ => true
  | _ => false

/-- Model of `QJsonValue::isDouble()`. -/
def QJsonValue.isDouble {D : Type} : QJsonValue D → Bool
  | .double _ => true
  | _ => false

/-- Model of `QJsonValue::toObject()`: the empty object for a value that is none. -/
def QJsonValue.toObject {D : Type} : QJsonValue D → QJsonObject D
  | .object o => o
  | _ => []

/-- Model of `QJsonValue::toDouble()`: `dflt` (Qt passes `0`) for a value that is none. -/
def QJsonValue.toDouble {D : Type} (dflt : D) : QJsonValue D → D
  | .double d => d
  | _ => dflt

/-! ## What the file uses and does not define -/

/-- Functions and constants used by `overviewpage.cpp` and declared elsewhere
(`bitcoinunits.h`, Qt, the build configuration). -/
structure Externals (D : Type) where
  /-- The test `QT_VERSION >= 0x050000` of the preprocessor. -/
  qt5 : Bool
  /-- The constant `BitcoinUnits::BTC`. -/
  BTC : Int
  /-- The function `BitcoinUnits::formatWithUnit(unit, amount, plussign, digits)`. -/
  formatWithUnit : Int → Int → Bool → Nat → String
  /-- The function `QObject::tr`. -/
  tr : String → String
  /-- The double `0`. -/
  zero : D
  /-- The test `x > 0` on doubles. -/
  gtZero : D → Bool
  /-- The value `nPrice * currentBalance / COIN` in double arithmetic. -/
  scaled : D → Int → D
  /-- The function `QString::number(x, format, precision)`. -/
  number : D → Char → Nat → String
  /-- The function `QJsonDocument::fromJson`. -/
  fromJson : QByteArray → QJsonDocument D
  /-- The function `base.resolved(relative)` of `QUrl`. -/
  resolved : QUrl → QUrl → QUrl

/-- The class `OptionsModel`, as far as this file reads it. -/
structure OptionsModel where
  displayUnit : Int
  deriving DecidableEq, Repr

/-- The class `WalletModel`, as far as this file reads it. -/
structure WalletModel where
  optionsModel : Option OptionsModel
  balance : Int
  totalMinted : Int
  stake : Int
  unconfirmedBalance : Int
  confirmingBalance : Int
  immatureBalance : Int
  deriving DecidableEq, Repr

/-! ## The page -/

def DECORATION_SIZE : Int := 64
def NUM_ITEMS : Int := 4

/-- A `QLabel`: its text, whether it was last told to be visible, and how often
`setText` was called on it. -/
structure QLabel where
  text : String
  visible : Bool
  setTextCalls : Nat
  deriving DecidableEq, Repr

def QLabel.setText (l : QLabel) (s : String) : QLabel :=
  { l with text := s, setTextCalls := l.setTextCalls + 1 }

def QLabel.setVisible (l : QLabel) (b : Bool) : QLabel :=
  { l with visible := b }

/-- The list view `listTransactions`. -/
structure QListView where
  hasDelegate : Bool
  iconSize : Int × Int
  minimumHeight : Int
  hasModel : Bool
  updateCalls : Nat
  deriving DecidableEq, Repr

/-- The widgets of `Ui::OverviewPage` that the file touches. -/
structure Ui where
  labelWalletStatus : QLabel
  labelTransactionsStatus : QLabel
  labelBalance : QLabel
  labelTotalMinted : QLabel
  labelStake : QLabel
  labelUnconfirmed : QLabel
  labelImmature : QLabel
  labelTotal : QLabel
  ov_unconfirmed_label : QLabel
  ov_immature_label : QLabel
  labelBtcValueText : QLabel
  labelBtcValue : QLabel
  listTransactions : QListView
  deriving DecidableEq, Repr

/-- The members of `TxViewDelegate`. -/
structure TxViewDelegate where
  unit : Int
  fontID : Int
  deriving DecidableEq, Repr

/-- The settings of the `TransactionFilterProxy` made by `setModel`. -/
structure TransactionFilterProxy where
  limit : Int
  dynamicSortFilter : Bool
  showInactive : Bool
  deriving DecidableEq, Repr

/-- The members of `OverviewPage`. -/
structure OverviewPage (D : Type) where
  ui : Ui
  model : Option WalletModel
  currentBalance : Int
  nTotalMinted : Int
  currentStake : Int
  currentUnconfirmedBalance : Int
  currentConfirmingBalance : Int
  currentImmatureBalance : Int
  nLastPrice : D
  nLastPriceUSD : D
  txdelegate : TxViewDelegate
  filter : Option TransactionFilterProxy
  /-- The interval in ms of the price timer, once started. -/
  timerPriceAPI : Option Nat
  /-- Connections of `balanceChanged` to `setBalance` made so far. -/
  balanceChangedConnections : Nat
  /-- Connections of `displayUnitChanged` to `updateDisplayUnit` made so far. -/
  displayUnitChangedConnections : Nat

/-- What the page does to the network objects. -/
inductive Effect where
  /-- The call `connect(manager, finished, this, handlePriceReply)`. -/
  | connectFinished : Effect
  /-- The call `manager->get(QNetworkRequest(url))`. -/
  | get (url : QUrl) : Effect
  /-- The call `reply->deleteLater()`. -/
  | deleteLater : Effect
  deriving DecidableEq, Repr

/-- The URLs of the GET requests among the effects, oldest first. -/
def requests (es : List Effect) : List QUrl :=
  es.filterMap (fun e => match e with
    | Effect.get url => some url
    | _ => none)

/-- The page together with the globals of the file: `nLastPriceCheck` and the
calls made on `manager` and on replies, oldest first. -/
structure World (D : Type) where
  page : OverviewPage D
  nLastPriceCheck : Nat
  effects : List Effect

/-- A finished `QNetworkReply`, as far as `handlePriceReply` reads it. -/
structure QNetworkReply where
  /-- Whether `error() == QNetworkReply::NoError`. -/
  noError : Bool
  /-- The value of `attribute(HttpStatusCodeAttribute).toInt()`. -/
  httpStatus : Int
  /-- The bytes `readAll()` returns. -/
  body : QByteArray
  /-- The value of `url()`. -/
  url : QUrl
  /-- The value of `attribute(RedirectionTargetAttribute).toUrl()`. -/
  redirectionTarget : QUrl
  deriving DecidableEq, Repr

/-- The values of the members that no constructor initialises. -/
structure Indeterminate (D : Type) where
  model : Option WalletModel
  nTotalMinted : Int
  nLastPrice : D
  nLastPriceUSD : D
  fontID : Int

/-! ## The operations -/

/-- The constructor of `TxViewDelegate`: `unit(BitcoinUnits::BTC)`. -/
def TxViewDelegate.ctor {D : Type} (E : Externals D) (fontID : Int) : TxViewDelegate :=
  { unit := E.BTC, fontID := fontID }

/-- The method `OverviewPage::showOutOfSyncWarning(fShow)`. -/
def OverviewPage.showOutOfSyncWarning {D : Type} (p : OverviewPage D) (fShow : Bool) :
    OverviewPage D :=
  let ui := p.ui
  let ui := { ui with labelWalletStatus := ui.labelWalletStatus.setVisible fShow }
  let ui := { ui with labelTransactionsStatus := ui.labelTransactionsStatus.setVisible fShow }
  { p with ui := ui }

/-- The constructor `OverviewPage::OverviewPage`, on the widgets `ui0` that
`setupUi` made. -/
def OverviewPage.ctor {D : Type} (E : Externals D) (ui0 : Ui) (u : Indeterminate D) :
    OverviewPage D :=
  let p : OverviewPage D :=
    { ui := ui0
      model := u.model
      currentBalance := 0
      nTotalMinted := u.nTotalMinted
      currentStake := 0
      currentUnconfirmedBalance := -1
      currentConfirmingBalance := -1
      currentImmatureBalance := -1
      nLastPrice := u.nLastPrice
      nLastPriceUSD := u.nLastPriceUSD
      txdelegate := TxViewDelegate.ctor E u.fontID
      filter := none
      timerPriceAPI := none
      balanceChangedConnections := 0
      displayUnitChangedConnections := 0 }
  let p := { p with txdelegate := { p.txdelegate with fontID := -1 } }
  -- Recent transactions
  let lt := p.ui.listTransactions
  let lt := { lt with hasDelegate := true }
  let lt := { lt with iconSize := (DECORATION_SIZE, DECORATION_SIZE) }
  let lt := { lt with minimumHeight := NUM_ITEMS * (DECORATION_SIZE + 2) }
  let ui := { p.ui with listTransactions := lt }
  -- init "out of sync" warning labels
  let ui := { ui with labelWalletStatus :=
    ui.labelWalletStatus.setText ("(" ++ E.tr ("out of sync") ++ ")") }
  let ui := { ui with labelTransactionsStatus :=
    ui.labelTransactionsStatus.setText ("(" ++ E.tr ("out of sync") ++ ")") }
  let p := { p with ui := ui }
  -- start with displaying the "out of sync" warnings
  let p := p.showOutOfSyncWarning true
  if E.qt5 then
    { p with nLastPrice := E.zero, nLastPriceUSD := E.zero, timerPriceAPI := some (90 * 1000) }
  else p

/-- The globals of the file next to a new page: `uint nLastPriceCheck = 0` and a
new `manager`. -/
def World.initial {D : Type} (E : Externals D) (ui0 : Ui) (u : Indeterminate D) : World D :=
  { page := OverviewPage.ctor E ui0 u, nLastPriceCheck := 0, effects := [] }

/-- The method `OverviewPage::updateBtcValueLabel(nPrice, nPriceUSD)`. -/
def OverviewPage.updateBtcValueLabel {D : Type} (E : Externals D) (p : OverviewPage D)
    (nPrice nPriceUSD : D) : OverviewPage D :=
  let text := E.number (E.scaled nPrice p.currentBalance) 'f' 6 ++ " BTC / $"
    ++ E.number (E.scaled nPriceUSD p.currentBalance) 'f' 2 ++ " USD"
  { p with ui := { p.ui with labelBtcValue := p.ui.labelBtcValue.setText text } }

/-- The URL of the price API. -/
def strURL : QUrl :=
  "https://api.coingecko.com/api/v3/coins/piecoin?localization=false&"
    ++ "tickers=false&market_data=true&community_data=false&"
    ++ "developer_data=false&sparkline=false"

/-- The method `OverviewPage::sendRequest()`; `nTimeNow` is the `uint` that
`QDateTime::currentDateTime().toUTC().toTime_t()` returns. -/
def OverviewPage.sendRequest {D : Type} (E : Externals D) (w : World D) (nTimeNow : Nat) :
    World D :=
  let w :=
    if uintSub nTimeNow w.nLastPriceCheck < 60 then
      { w with page := w.page.updateBtcValueLabel E w.page.nLastPrice w.page.nLastPriceUSD }
    else w
  let w := { w with nLastPriceCheck := nTimeNow }
  -- decide how to process finished() signal
  let w := { w with effects := w.effects ++ [Effect.connectFinished] }
  { w with effects := w.effects ++ [Effect.get strURL] }

/-- The test `model && model->getOptionsModel()`, with the two objects when it
holds. -/
def optionsModelOf (model : Option WalletModel) : Option (WalletModel × OptionsModel) :=
  match model with
  | none => none
  | some m =>
    match m.optionsModel with
    | none => none
    | some om => some (m, om)

/-- The method `OverviewPage::setBalance`; `none` when `model` or its options
model is null (the first line dereferences both). `nTimeNow` is the clock
reading of the `sendRequest()` at the end. -/
def OverviewPage.setBalance {D : Type} (E : Externals D) (w : World D)
    (balance minted stake unconfirmedBalance confirmingBalance immatureBalance : Int)
    (nTimeNow : Nat) : Option (World D) :=
  match optionsModelOf w.page.model with
  | none => none
  | some (_, om) =>
    let unit := om.displayUnit
    let p := { w.page with
      currentBalance := balance
      nTotalMinted := minted
      currentStake := stake
      currentUnconfirmedBalance := unconfirmedBalance
      currentConfirmingBalance := confirmingBalance
      currentImmatureBalance := immatureBalance }
    let ui := p.ui
    let ui := { ui with labelBalance :=
      ui.labelBalance.setText (E.formatWithUnit unit balance false 2) }
    let ui := { ui with labelTotalMinted :=
      ui.labelTotalMinted.setText (E.formatWithUnit unit minted false 2) }
    let ui := { ui with labelStake :=
      ui.labelStake.setText (E.formatWithUnit unit stake false 2) }
    let ui := { ui with labelUnconfirmed :=
      ui.labelUnconfirmed.setText (E.formatWithUnit unit unconfirmedBalance false 2) }
    let ui := { ui with labelImmature :=
      ui.labelImmature.setText (E.formatWithUnit unit immatureBalance false 2) }
    let ui := { ui with labelTotal :=
      ui.labelTotal.setText (E.formatWithUnit unit
        (add64 (add64 (add64 balance stake) unconfirmedBalance) immatureBalance) false 2) }
    let ui :=
      if confirmingBalance > unconfirmedBalance then
        let ui := { ui with ov_unconfirmed_label :=
          ui.ov_unconfirmed_label.setText ("Confirming") }
        { ui with labelUnconfirmed :=
          ui.labelUnconfirmed.setText (E.formatWithUnit unit confirmingBalance false 2) }
      else if ui.ov_unconfirmed_label.text ≠ "Unconfirmed" then
        { ui with ov_unconfirmed_label := ui.ov_unconfirmed_label.setText ("Unconfirmed") }
      else ui
    let showUnconfirmed : Bool :=
      if confirmingBalance ≠ 0 ∨ unconfirmedBalance ≠ 0 then true else false
    let showImmature : Bool := decide (immatureBalance ≠ 0)
    let ui := { ui with ov_unconfirmed_label := ui.ov_unconfirmed_label.setVisible showUnconfirmed }
    let ui := { ui with labelUnconfirmed := ui.labelUnconfirmed.setVisible showUnconfirmed }
    let ui := { ui with labelImmature := ui.labelImmature.setVisible showImmature }
    let ui := { ui with ov_immature_label := ui.ov_immature_label.setVisible showImmature }
    let w := { w with page := { p with ui := ui } }
    if E.qt5 then
      some (OverviewPage.sendRequest E w nTimeNow)
    else
      let ui := w.page.ui
      let ui := { ui with labelBtcValueText := ui.labelBtcValueText.setVisible false }
      let ui := { ui with labelBtcValue := ui.labelBtcValue.setVisible false }
      some { w with page := { w.page with ui := ui } }

/-- The method `OverviewPage::updateDisplayUnit()`; `nTimeNow` is the clock
reading of the `setBalance` it may call. -/
def OverviewPage.updateDisplayUnit {D : Type} (E : Externals D) (w : World D) (nTimeNow : Nat) :
    Option (World D) :=
  match optionsModelOf w.page.model with
  | none => some w
  | some (m, om) =>
    let r :=
      if w.page.currentBalance ≠ -1 then
        OverviewPage.setBalance E w w.page.currentBalance w.page.nTotalMinted m.stake
          w.page.currentUnconfirmedBalance w.page.currentConfirmingBalance
          w.page.currentImmatureBalance nTimeNow
      else some w
    match r with
    | none => none
    | some w =>
      -- Update txdelegate->unit with the current unit
      let p := { w.page with txdelegate := { w.page.txdelegate with unit := om.displayUnit } }
      let lt := p.ui.listTransactions
      let lt := { lt with updateCalls := lt.updateCalls + 1 }
      let p := { p with ui := { p.ui with listTransactions := lt } }
      some { w with page := p }

/-- The method `OverviewPage::setModel(model)`; `t1` and `t2` are the clock
readings of the two `setBalance` calls it may make. -/
def OverviewPage.setModel {D : Type} (E : Externals D) (w : World D)
    (model : Option WalletModel) (t1 t2 : Nat) : Option (World D) :=
  let w := { w with page := { w.page with model := model } }
  match optionsModelOf model with
  | none => OverviewPage.updateDisplayUnit E w t2
  | some (m, _) =>
    -- Set up transaction list
    let filter : TransactionFilterProxy :=
      { limit := NUM_ITEMS, dynamicSortFilter := true, showInactive := false }
    let p := { w.page with filter := some filter }
    let lt := p.ui.listTransactions
    let lt := { lt with hasModel := true }
    let p := { p with ui := { p.ui with listTransactions := lt } }
    let w := { w with page := p }
    -- Keep up to date with wallet
    match OverviewPage.setBalance E w m.balance m.totalMinted m.stake m.unconfirmedBalance
        m.confirmingBalance m.immatureBalance t1 with
    | none => none
    | some w =>
      let p := { w.page with balanceChangedConnections := w.page.balanceChangedConnections + 1 }
      let n := p.displayUnitChangedConnections + 1
      let p := { p with displayUnitChangedConnections := n }
      -- update the display unit, to not use the default ("BTC")
      OverviewPage.updateDisplayUnit E { w with page := p } t2

/-- The method `OverviewPage::handlePriceReply(reply)`. -/
def OverviewPage.handlePriceReply {D : Type} (E : Externals D) (w : World D)
    (reply : QNetworkReply) : World D :=
  let w := { w with effects := w.effects ++ [Effect.deleteLater] }
  if reply.noError then
    -- Get the http status code
    let v := reply.httpStatus
    if v ≥ 200 ∧ v < 300 then
      -- Success
      let result := reply.body
      let responseObject := (E.fromJson result).toObject
      let p := w.page
      let p :=
        if QJsonObject.contains responseObject "market_data"
            && (QJsonObject.value responseObject "market_data").isObject then
          let marketData := (QJsonObject.value responseObject "market_data").toObject
          if QJsonObject.contains marketData "current_price"
              && (QJsonObject.value marketData "current_price").isObject then
            let currentPrice := (QJsonObject.value marketData "current_price").toObject
            if QJsonObject.contains currentPrice "btc"
                && (QJsonObject.value currentPrice "usd").isDouble
                && QJsonObject.contains currentPrice "usd"
                && (QJsonObject.value currentPrice "usd").isDouble then
              let p :=
                if E.gtZero ((QJsonObject.value currentPrice "btc").toDouble E.zero) then
                  { p with nLastPrice := (QJsonObject.value currentPrice "btc").toDouble E.zero }
                else p
              if E.gtZero ((QJsonObject.value currentPrice "usd").toDouble E.zero) then
                { p with nLastPriceUSD := (QJsonObject.value currentPrice "usd").toDouble E.zero }
              else p
            else p
          else p
        else p
      { w with page := p.updateBtcValueLabel E p.nLastPrice p.nLastPriceUSD }
    else if v ≥ 300 ∧ v < 400 then
      -- Redirection: get the redirection url
      let newUrl := reply.redirectionTarget
      let newUrl := E.resolved reply.url newUrl
      { w with effects := w.effects ++ [Effect.get newUrl] }
    else w
  else w

/-! ## Concrete inputs -/

/-- Externals over integer prices, for evaluating the operations. -/
def sampleExternals (qt5 : Bool) : Externals Int :=
  { qt5 := qt5
    BTC := 0
    formatWithUnit := fun unit amount _ _ =>
      String.mk (List.replicate amount.toNat 'c' ++ List.replicate unit.toNat 'u')
    tr := fun s => s
    zero := 0
    gtZero := fun x => decide (x > 0)
    scaled := fun x n => x * n / 100000000
    number := fun x _ _ => String.mk (List.replicate x.toNat 'd')
    fromJson := fun bytes =>
      match bytes with
      | [] => .null
      | b :: _ => .object [("market_data", .object [("current_price",
          .object [("btc", .double (b : Int)), ("usd", .double (2 * (b : Int)))])])]
    resolved := fun base rel => base ++ rel }

def sampleLabel : QLabel := { text := "", visible := false, setTextCalls := 0 }

def sampleUi : Ui :=
  { labelWalletStatus := sampleLabel
    labelTransactionsStatus := sampleLabel
    labelBalance := sampleLabel
    labelTotalMinted := sampleLabel
    labelStake := sampleLabel
    labelUnconfirmed := sampleLabel
    labelImmature := sampleLabel
    labelTotal := sampleLabel
    ov_unconfirmed_label := sampleLabel
    ov_immature_label := sampleLabel
    labelBtcValueText := sampleLabel
    labelBtcValue := sampleLabel
    listTransactions :=
      { hasDelegate := false, iconSize := (0, 0), minimumHeight := 0, hasModel := false,
        updateCalls := 0 } }

def sampleIndeterminate : Indeterminate Int :=
  { model := none, nTotalMinted := 7, nLastPrice := 3, nLastPriceUSD := 4, fontID := 9 }

def sampleOptionsModel : OptionsModel := { displayUnit := 1 }

def sampleModel : WalletModel :=
  { optionsModel := some sampleOptionsModel
    balance := 5
    totalMinted := 1
    stake := 2
    unconfirmedBalance := 3
    confirmingBalance := 0
    immatureBalance := 0 }

/-- A new page and the initial globals. -/
def sampleWorld (qt5 : Bool) : World Int :=
  World.initial (sampleExternals qt5) sampleUi sampleIndeterminate

/-- The new page after its model pointer was set to `sampleModel`. -/
def sampleWorldWithModel (qt5 : Bool) : World Int :=
  { sampleWorld qt5 with page := { (sampleWorld qt5).page with model := some sampleModel } }

/-- The page of `sampleWorldWithModel` holding a balance of one coin
(100000000 units) and the cached prices 3 and 4. -/
def sampleWorldWithBalance (qt5 : Bool) : World Int :=
  { sampleWorldWithModel qt5 with
    page := { (sampleWorldWithModel qt5).page with
      currentBalance := 100000000
      nLastPrice := 3
      nLastPriceUSD := 4 } }

def sampleReplyError : QNetworkReply :=
  { noError := false, httpStatus := 0, body := [], url := "https://a/", redirectionTarget := "" }

def sampleReplyOk : QNetworkReply :=
  { noError := true, httpStatus := 200, body := [6], url := "https://a/", redirectionTarget := "" }

def sampleReplyRedirect : QNetworkReply :=
  { noError := true, httpStatus := 302, body := [], url := "https://a/", redirectionTarget := "b" }

/-! ## Auxiliary facts -/

/-- Wrapping leaves a value of `qint64` as it is. -/
theorem wrap64_of_inInt64 (x : Int) (h : inInt64 x) : wrap64 x = x := by
  unfold inInt64 at h
  unfold wrap64
  rw [Int.emod_eq_of_lt (by omega) (by omega)]
  omega

/-- Wrapping a partial sum does not change the wrapped sum. -/
theorem wrap64_add_wrap64 (x y : Int) : wrap64 (wrap64 x + y) = wrap64 (x + y) := by
  unfold wrap64
  have h : ((x + 2 ^ 63) % 2 ^ 64 - 2 ^ 63 + y + 2 ^ 63) % 2 ^ 64 = (x + y + 2 ^ 63) % 2 ^ 64 := by
    omega
  rw [h]

/-- The 64-bit sum of four balances is their sum when that fits in 64 bits,
whether or not a partial sum wrapped. -/
theorem add64_total (a b c d : Int) (h : inInt64 (a + b + c + d)) :
    add64 (add64 (add64 a b) c) d = a + b + c + d := by
  unfold add64
  rw [wrap64_add_wrap64, add_assoc, wrap64_add_wrap64, ← add_assoc, wrap64_of_inInt64 _ h]

/-- The test `model && model->getOptionsModel()` holds for a model with an
options model. -/
theorem optionsModelOf_some (m : WalletModel) (om : OptionsModel)
    (h : m.optionsModel = some om) : optionsModelOf (some m) = some (m, om) := by
  simp [optionsModelOf, h]

/-- What `sendRequest` leaves of the page: all but `labelBtcValue`. -/
theorem sendRequest_page {D : Type} (E : Externals D) (w : World D) (t : Nat) :
    (OverviewPage.sendRequest E w t).page = w.page ∨
    (OverviewPage.sendRequest E w t).page =
      w.page.updateBtcValueLabel E w.page.nLastPrice w.page.nLastPriceUSD := by
  unfold OverviewPage.sendRequest
  by_cases h : uintSub t w.nLastPriceCheck < 60 <;> simp [h]

/-- The total shown by `setBalance`, in 64-bit arithmetic, and the stored
arguments. -/
theorem setBalance_total_wrapped {D : Type} (E : Externals D) (w : World D)
    (balance minted stake unconfirmedBalance confirmingBalance immatureBalance : Int)
    (nTimeNow : Nat) (m : WalletModel) (om : OptionsModel)
    (hm : w.page.model = some m) (hom : m.optionsModel = some om) :
    ∃ w1, OverviewPage.setBalance E w balance minted stake unconfirmedBalance
        confirmingBalance immatureBalance nTimeNow = some w1 ∧
      w1.page.ui.labelTotal.text = E.formatWithUnit om.displayUnit
        (add64 (add64 (add64 balance stake) unconfirmedBalance) immatureBalance) false 2 ∧
      w1.page.currentBalance = balance ∧
      w1.page.nTotalMinted = minted ∧
      w1.page.currentStake = stake ∧
      w1.page.currentUnconfirmedBalance = unconfirmedBalance ∧
      w1.page.currentConfirmingBalance = confirmingBalance ∧
      w1.page.currentImmatureBalance = immatureBalance := by
  have h := optionsModelOf_some m om hom
  rw [← hm] at h
  cases hq : E.qt5
  · simp only [OverviewPage.setBalance, h, hq]
    refine ⟨_, rfl, ?_⟩
    by_cases hc : confirmingBalance > unconfirmedBalance
    · simp [hc, QLabel.setVisible, QLabel.setText]
    · by_cases ht : w.page.ui.ov_unconfirmed_label.text = "Unconfirmed" <;>
        simp [hc, ht, QLabel.setVisible, QLabel.setText]
  · simp only [OverviewPage.setBalance, h, hq, if_true]
    refine ⟨_, rfl, ?_⟩
    by_cases hc : confirmingBalance > unconfirmedBalance
    · rcases sendRequest_page E _ nTimeNow with hp | hp <;> rw [hp] <;>
        simp [hc, OverviewPage.updateBtcValueLabel, QLabel.setVisible, QLabel.setText]
    · by_cases ht : w.page.ui.ov_unconfirmed_label.text = "Unconfirmed" <;>
        rcases sendRequest_page E _ nTimeNow with hp | hp <;> rw [hp] <;>
        simp [hc, ht, OverviewPage.updateBtcValueLabel, QLabel.setVisible, QLabel.setText]

/-- The test `model && model->getOptionsModel()` fails for a null model and for
a model without options model. -/
theorem optionsModelOf_none (model : Option WalletModel)
    (h : ∀ m, model = some m → m.optionsModel = none) : optionsModelOf model = none := by
  cases model with
  | none => rfl
  | some m => simp [optionsModelOf, h m rfl]

/-- What `setBalance` leaves alone: the model pointer and the delegate. -/
theorem setBalance_frame {D : Type} (E : Externals D) (w : World D)
    (balance minted stake unconfirmedBalance confirmingBalance immatureBalance : Int)
    (nTimeNow : Nat) (m : WalletModel) (om : OptionsModel)
    (hm : w.page.model = some m) (hom : m.optionsModel = some om) :
    ∃ w1, OverviewPage.setBalance E w balance minted stake unconfirmedBalance
        confirmingBalance immatureBalance nTimeNow = some w1 ∧
      w1.page.model = w.page.model ∧ w1.page.txdelegate = w.page.txdelegate := by
  have h := optionsModelOf_some m om hom
  rw [← hm] at h
  cases hq : E.qt5
  · simp [OverviewPage.setBalance, h, hq]
  · simp only [OverviewPage.setBalance, h, hq, if_true]
    refine ⟨_, rfl, ?_⟩
    rcases sendRequest_page E _ nTimeNow with hp | hp <;> rw [hp] <;>
      simp [OverviewPage.updateBtcValueLabel]

/-- With a model and an options model, `updateDisplayUnit` returns and sets the
unit of the delegate. -/
theorem updateDisplayUnit_unit {D : Type} (E : Externals D) (w : World D) (t : Nat)
    (m : WalletModel) (om : OptionsModel)
    (hm : w.page.model = some m) (hom : m.optionsModel = some om) :
    ∃ w1, OverviewPage.updateDisplayUnit E w t = some w1 ∧
      w1.page.model = w.page.model ∧ w1.page.txdelegate.unit = om.displayUnit := by
  have h := optionsModelOf_some m om hom
  rw [← hm] at h
  by_cases hb : w.page.currentBalance = -1
  · simp [OverviewPage.updateDisplayUnit, h, hb]
  · obtain ⟨w1, h1, hmod, _⟩ := setBalance_frame E w w.page.currentBalance w.page.nTotalMinted
      m.stake w.page.currentUnconfirmedBalance w.page.currentConfirmingBalance
      w.page.currentImmatureBalance t m om hm hom
    simp [OverviewPage.updateDisplayUnit, h, hb, h1, hmod]

/-- Without a model or without an options model, `updateDisplayUnit` does
nothing. -/
theorem updateDisplayUnit_noop {D : Type} (E : Externals D) (w : World D) (t : Nat)
    (h : ∀ m, w.page.model = some m → m.optionsModel = none) :
    OverviewPage.updateDisplayUnit E w t = some w := by
  simp [OverviewPage.updateDisplayUnit, optionsModelOf_none _ h]

/-- Without a model or without an options model, `setModel` only stores the
pointer. -/
theorem setModel_noop {D : Type} (E : Externals D) (w : World D) (model : Option WalletModel)
    (t1 t2 : Nat) (h : ∀ m, model = some m → m.optionsModel = none) :
    OverviewPage.setModel E w model t1 t2
      = some { w with page := { w.page with model := model } } := by
  simp only [OverviewPage.setModel, optionsModelOf_none _ h]
  exact updateDisplayUnit_noop E _ t2 h

/-- A new page has the unit `BitcoinUnits::BTC` in its delegate. -/
theorem ctor_unit {D : Type} (E : Externals D) (ui0 : Ui) (u : Indeterminate D) :
    (OverviewPage.ctor E ui0 u).txdelegate.unit = E.BTC := by
  cases h : E.qt5 <;>
    simp [OverviewPage.ctor, h, OverviewPage.showOutOfSyncWarning, TxViewDelegate.ctor]

/-- Every `sendRequest` call issues a GET to the price API, whatever the clock
and the time of the previous call. -/
theorem sendRequest_effects {D : Type} (E : Externals D) (w : World D) (nTimeNow : Nat) :
    (OverviewPage.sendRequest E w nTimeNow).effects
      = w.effects ++ [Effect.connectFinished, Effect.get strURL] := by
  unfold OverviewPage.sendRequest
  by_cases h : uintSub nTimeNow w.nLastPriceCheck < 60 <;> simp [h]

/-! ## The claims -/

/-- C2: after `showOutOfSyncWarning(fShow)` each of the two out-of-sync
indicators is visible if and only if `fShow` is true, their texts are as
before, putting the two labels back gives the page as it was (nothing else
changed), and a newly constructed page shows both warnings. -/
theorem showOutOfSyncWarning_sets_both_indicators {D : Type} (E : Externals D)
    (p : OverviewPage D) (fShow : Bool) (ui0 : Ui) (u : Indeterminate D) :
    ((p.showOutOfSyncWarning fShow).ui.labelWalletStatus.visible = true ↔ fShow = true) ∧
    ((p.showOutOfSyncWarning fShow).ui.labelTransactionsStatus.visible = true ↔ fShow = true) ∧
    (p.showOutOfSyncWarning fShow).ui.labelWalletStatus.text = p.ui.labelWalletStatus.text ∧
    (p.showOutOfSyncWarning fShow).ui.labelWalletStatus.setTextCalls
      = p.ui.labelWalletStatus.setTextCalls ∧
    (p.showOutOfSyncWarning fShow).ui.labelTransactionsStatus.text
      = p.ui.labelTransactionsStatus.text ∧
    (p.showOutOfSyncWarning fShow).ui.labelTransactionsStatus.setTextCalls
      = p.ui.labelTransactionsStatus.setTextCalls ∧
    { p.showOutOfSyncWarning fShow with
      ui := { (p.showOutOfSyncWarning fShow).ui with
        labelWalletStatus := p.ui.labelWalletStatus
        labelTransactionsStatus := p.ui.labelTransactionsStatus } } = p ∧
    (OverviewPage.ctor E ui0 u).ui.labelWalletStatus.visible = true ∧
    (OverviewPage.ctor E ui0 u).ui.labelTransactionsStatus.visible = true := by
  refine ⟨?_, ?_, ?_, ?_, ?_, ?_, ?_, ?_, ?_⟩
  · simp [OverviewPage.showOutOfSyncWarning, QLabel.setVisible]
  · simp [OverviewPage.showOutOfSyncWarning, QLabel.setVisible]
  · simp [OverviewPage.showOutOfSyncWarning, QLabel.setVisible]
  · simp [OverviewPage.showOutOfSyncWarning, QLabel.setVisible]
  · simp [OverviewPage.showOutOfSyncWarning, QLabel.setVisible]
  · simp [OverviewPage.showOutOfSyncWarning, QLabel.setVisible]
  · simp [OverviewPage.showOutOfSyncWarning, QLabel.setVisible]
  · cases h : E.qt5 <;>
      simp [OverviewPage.ctor, h, OverviewPage.showOutOfSyncWarning, QLabel.setVisible]
  · cases h : E.qt5 <;>
      simp [OverviewPage.ctor, h, OverviewPage.showOutOfSyncWarning, QLabel.setVisible]

/-- C3: a `setBalance` call on a page with a model and an options model returns,
and afterwards `labelImmature` and `ov_immature_label` are visible if and only
if `immatureBalance` is not zero, whatever the other arguments, the clock and
the page before. -/
theorem setBalance_immature_visible_iff_nonzero {D : Type} (E : Externals D) (w : World D)
    (balance minted stake unconfirmedBalance confirmingBalance immatureBalance : Int)
    (nTimeNow : Nat) (m : WalletModel) (om : OptionsModel)
    (hm : w.page.model = some m) (hom : m.optionsModel = some om) :
    ∃ w1, OverviewPage.setBalance E w balance minted stake unconfirmedBalance
        confirmingBalance immatureBalance nTimeNow = some w1 ∧
      (w1.page.ui.labelImmature.visible = true ↔ immatureBalance ≠ 0) ∧
      (w1.page.ui.ov_immature_label.visible = true ↔ immatureBalance ≠ 0) := by
  have h := optionsModelOf_some m om hom
  rw [← hm] at h
  cases hq : E.qt5
  · simp [OverviewPage.setBalance, h, hq, QLabel.setVisible]
  · simp only [OverviewPage.setBalance, h, hq, if_true]
    refine ⟨_, rfl, ?_⟩
    rcases sendRequest_page E _ nTimeNow with hp | hp <;> rw [hp] <;>
      simp [OverviewPage.updateBtcValueLabel, QLabel.setVisible]

/-- Witness of C3 on the sample page, with `immatureBalance = 0`. -/
theorem setBalance_immature_visible_iff_nonzero_witness :
    (sampleWorldWithModel true).page.model = some sampleModel ∧
    sampleModel.optionsModel = some sampleOptionsModel ∧
    ∃ w1, OverviewPage.setBalance (sampleExternals true) (sampleWorldWithModel true)
        5 1 2 3 4 0 1700000000 = some w1 ∧
      (w1.page.ui.labelImmature.visible = true ↔ (0 : Int) ≠ 0) ∧
      (w1.page.ui.ov_immature_label.visible = true ↔ (0 : Int) ≠ 0) :=
  ⟨rfl, rfl, setBalance_immature_visible_iff_nonzero (sampleExternals true)
    (sampleWorldWithModel true) 5 1 2 3 4 0 1700000000 sampleModel sampleOptionsModel rfl rfl⟩

/-- C5: a `setBalance` call on a page with a model and an options model, whose
sum `balance + stake + unconfirmedBalance + immatureBalance` fits in 64 bits,
returns; afterwards `labelTotal` shows `formatWithUnit(unit, sum, false, 2)` for
the display unit of the model, the same for every other `minted` and
`confirmingBalance`, and the six arguments are stored unchanged. -/
theorem setBalance_total_and_stored {D : Type} (E : Externals D) (w : World D)
    (balance minted stake unconfirmedBalance confirmingBalance immatureBalance : Int)
    (nTimeNow : Nat) (m : WalletModel) (om : OptionsModel)
    (hm : w.page.model = some m) (hom : m.optionsModel = some om)
    (hsum : inInt64 (balance + stake + unconfirmedBalance + immatureBalance)) :
    ∃ w1, OverviewPage.setBalance E w balance minted stake unconfirmedBalance
        confirmingBalance immatureBalance nTimeNow = some w1 ∧
      w1.page.ui.labelTotal.text = E.formatWithUnit om.displayUnit
        (balance + stake + unconfirmedBalance + immatureBalance) false 2 ∧
      w1.page.currentBalance = balance ∧
      w1.page.nTotalMinted = minted ∧
      w1.page.currentStake = stake ∧
      w1.page.currentUnconfirmedBalance = unconfirmedBalance ∧
      w1.page.currentConfirmingBalance = confirmingBalance ∧
      w1.page.currentImmatureBalance = immatureBalance ∧
      ∀ (minted2 confirmingBalance2 : Int) (nTimeNow2 : Nat),
        ∃ w2, OverviewPage.setBalance E w balance minted2 stake unconfirmedBalance
            confirmingBalance2 immatureBalance nTimeNow2 = some w2 ∧
          w2.page.ui.labelTotal.text = w1.page.ui.labelTotal.text := by
  obtain ⟨w1, h1, ht, hb, hmi, hs, hu, hc, hi⟩ :=
    setBalance_total_wrapped E w balance minted stake unconfirmedBalance confirmingBalance
      immatureBalance nTimeNow m om hm hom
  refine ⟨w1, h1, ?_, hb, hmi, hs, hu, hc, hi, ?_⟩
  · rw [ht, add64_total _ _ _ _ hsum]
  · intro minted2 confirmingBalance2 nTimeNow2
    obtain ⟨w2, h2, ht2, _⟩ :=
      setBalance_total_wrapped E w balance minted2 stake unconfirmedBalance confirmingBalance2
        immatureBalance nTimeNow2 m om hm hom
    exact ⟨w2, h2, by rw [ht2, ht]⟩

/-- Witness of C5 on the sample page, with total `5 + 2 + 3 + 0`. -/
theorem setBalance_total_and_stored_witness :
    (sampleWorldWithModel true).page.model = some sampleModel ∧
    sampleModel.optionsModel = some sampleOptionsModel ∧
    inInt64 (5 + 2 + 3 + 0) ∧
    ∃ w1, OverviewPage.setBalance (sampleExternals true) (sampleWorldWithModel true)
        5 1 2 3 4 0 1700000000 = some w1 ∧
      w1.page.ui.labelTotal.text = (sampleExternals true).formatWithUnit
        sampleOptionsModel.displayUnit (5 + 2 + 3 + 0) false 2 ∧
      w1.page.currentBalance = 5 ∧
      w1.page.nTotalMinted = 1 ∧
      w1.page.currentStake = 2 ∧
      w1.page.currentUnconfirmedBalance = 3 ∧
      w1.page.currentConfirmingBalance = 4 ∧
      w1.page.currentImmatureBalance = 0 ∧
      ∀ (minted2 confirmingBalance2 : Int) (nTimeNow2 : Nat),
        ∃ w2, OverviewPage.setBalance (sampleExternals true) (sampleWorldWithModel true)
            5 minted2 2 3 confirmingBalance2 0 nTimeNow2 = some w2 ∧
          w2.page.ui.labelTotal.text = w1.page.ui.labelTotal.text :=
  ⟨rfl, rfl, by decide, setBalance_total_and_stored (sampleExternals true)
    (sampleWorldWithModel true) 5 1 2 3 4 0 1700000000 sampleModel sampleOptionsModel rfl rfl
    (by decide)⟩

/-- C6: a `setBalance` call on a page with a model and an options model returns;
afterwards, if `confirmingBalance > unconfirmedBalance` the caption
`ov_unconfirmed_label` is "Confirming" and `labelUnconfirmed` shows the
formatted `confirmingBalance`, otherwise the caption is "Unconfirmed" and
`labelUnconfirmed` shows the formatted `unconfirmedBalance`; caption and value
are visible if and only if one of the two balances is not zero. -/
theorem setBalance_unconfirmed_row {D : Type} (E : Externals D) (w : World D)
    (balance minted stake unconfirmedBalance confirmingBalance immatureBalance : Int)
    (nTimeNow : Nat) (m : WalletModel) (om : OptionsModel)
    (hm : w.page.model = some m) (hom : m.optionsModel = some om) :
    ∃ w1, OverviewPage.setBalance E w balance minted stake unconfirmedBalance
        confirmingBalance immatureBalance nTimeNow = some w1 ∧
      (confirmingBalance > unconfirmedBalance →
        w1.page.ui.ov_unconfirmed_label.text = "Confirming" ∧
        w1.page.ui.labelUnconfirmed.text
          = E.formatWithUnit om.displayUnit confirmingBalance false 2) ∧
      (¬ confirmingBalance > unconfirmedBalance →
        w1.page.ui.ov_unconfirmed_label.text = "Unconfirmed" ∧
        w1.page.ui.labelUnconfirmed.text
          = E.formatWithUnit om.displayUnit unconfirmedBalance false 2) ∧
      (w1.page.ui.ov_unconfirmed_label.visible = true ↔
        (confirmingBalance ≠ 0 ∨ unconfirmedBalance ≠ 0)) ∧
      (w1.page.ui.labelUnconfirmed.visible = true ↔
        (confirmingBalance ≠ 0 ∨ unconfirmedBalance ≠ 0)) := by
  have h := optionsModelOf_some m om hom
  rw [← hm] at h
  cases hq : E.qt5
  · simp only [OverviewPage.setBalance, h, hq]
    refine ⟨_, rfl, ?_⟩
    by_cases hc : confirmingBalance > unconfirmedBalance
    · simp [hc, QLabel.setVisible, QLabel.setText]
    · by_cases ht : w.page.ui.ov_unconfirmed_label.text = "Unconfirmed" <;>
        simp [hc, ht, QLabel.setVisible, QLabel.setText]
  · simp only [OverviewPage.setBalance, h, hq, if_true]
    refine ⟨_, rfl, ?_⟩
    by_cases hc : confirmingBalance > unconfirmedBalance
    · rcases sendRequest_page E _ nTimeNow with hp | hp <;> rw [hp] <;>
        simp [hc, OverviewPage.updateBtcValueLabel, QLabel.setVisible, QLabel.setText]
    · by_cases ht : w.page.ui.ov_unconfirmed_label.text = "Unconfirmed" <;>
        rcases sendRequest_page E _ nTimeNow with hp | hp <;> rw [hp] <;>
        simp [hc, ht, OverviewPage.updateBtcValueLabel, QLabel.setVisible, QLabel.setText]

/-- Witness of C6 on the sample page, with `confirmingBalance = 4` above
`unconfirmedBalance = 3`. -/
theorem setBalance_unconfirmed_row_witness :
    (sampleWorldWithModel true).page.model = some sampleModel ∧
    sampleModel.optionsModel = some sampleOptionsModel ∧
    ∃ w1, OverviewPage.setBalance (sampleExternals true) (sampleWorldWithModel true)
        5 1 2 3 4 0 1700000000 = some w1 ∧
      ((4 : Int) > 3 →
        w1.page.ui.ov_unconfirmed_label.text = "Confirming" ∧
        w1.page.ui.labelUnconfirmed.text
          = (sampleExternals true).formatWithUnit sampleOptionsModel.displayUnit 4 false 2) ∧
      (¬ (4 : Int) > 3 →
        w1.page.ui.ov_unconfirmed_label.text = "Unconfirmed" ∧
        w1.page.ui.labelUnconfirmed.text
          = (sampleExternals true).formatWithUnit sampleOptionsModel.displayUnit 3 false 2) ∧
      (w1.page.ui.ov_unconfirmed_label.visible = true ↔ ((4 : Int) ≠ 0 ∨ (3 : Int) ≠ 0)) ∧
      (w1.page.ui.labelUnconfirmed.visible = true ↔ ((4 : Int) ≠ 0 ∨ (3 : Int) ≠ 0)) :=
  ⟨rfl, rfl, setBalance_unconfirmed_row (sampleExternals true)
    (sampleWorldWithModel true) 5 1 2 3 4 0 1700000000 sampleModel sampleOptionsModel rfl rfl⟩

/-- C4: for a model with an options model, `setModel(model)` returns with the
pointer stored and the unit of the delegate equal to the display unit of the
options model, and so does every `updateDisplayUnit()` on a page holding such a
model; for a null model or a model without options model, `updateDisplayUnit`
changes nothing at all, `setModel` only stores the pointer, and on a new page
the unit is and stays `BitcoinUnits::BTC`. -/
theorem setModel_updateDisplayUnit_unit {D : Type} (E : Externals D) (w : World D)
    (model : Option WalletModel) (t1 t2 t3 : Nat) (ui0 : Ui) (u : Indeterminate D) :
    (∀ m om, model = some m → m.optionsModel = some om →
      ∃ w1, OverviewPage.setModel E w model t1 t2 = some w1 ∧
        w1.page.model = model ∧ w1.page.txdelegate.unit = om.displayUnit) ∧
    (∀ m om, w.page.model = some m → m.optionsModel = some om →
      ∃ w1, OverviewPage.updateDisplayUnit E w t3 = some w1 ∧
        w1.page.model = w.page.model ∧ w1.page.txdelegate.unit = om.displayUnit) ∧
    ((∀ m, w.page.model = some m → m.optionsModel = none) →
      OverviewPage.updateDisplayUnit E w t3 = some w) ∧
    ((∀ m, model = some m → m.optionsModel = none) →
      OverviewPage.setModel E w model t1 t2
        = some { w with page := { w.page with model := model } }) ∧
    ((∀ m, model = some m → m.optionsModel = none) →
      ∃ w1, OverviewPage.setModel E (World.initial E ui0 u) model t1 t2 = some w1 ∧
        w1.page.txdelegate.unit = E.BTC ∧
        OverviewPage.updateDisplayUnit E w1 t3 = some w1 ∧
        w1.page.txdelegate.unit = (World.initial E ui0 u).page.txdelegate.unit) := by
  refine ⟨?_, ?_, ?_, ?_, ?_⟩
  · intro m om hm hom
    subst hm
    have h := optionsModelOf_some m om hom
    simp only [OverviewPage.setModel, h]
    obtain ⟨w1, h1, hmod, _⟩ := setBalance_frame E
      { w with page := { w.page with
          model := some m
          filter := some { limit := NUM_ITEMS, dynamicSortFilter := true, showInactive := false }
          ui := { w.page.ui with
            listTransactions := { w.page.ui.listTransactions with hasModel := true } } } }
      m.balance m.totalMinted m.stake m.unconfirmedBalance m.confirmingBalance
      m.immatureBalance t1 m om rfl hom
    simp only [h1]
    obtain ⟨w2, h2, hmod2, hu2⟩ := updateDisplayUnit_unit E
      { w1 with page := { w1.page with
          balanceChangedConnections := w1.page.balanceChangedConnections + 1
          displayUnitChangedConnections := w1.page.displayUnitChangedConnections + 1 } }
      t2 m om hmod hom
    exact ⟨w2, h2, by rw [hmod2]; exact hmod, hu2⟩
  · intro m om hm hom
    exact updateDisplayUnit_unit E w t3 m om hm hom
  · intro h
    exact updateDisplayUnit_noop E w t3 h
  · intro h
    exact setModel_noop E w model t1 t2 h
  · intro h
    refine ⟨_, setModel_noop E _ model t1 t2 h, ?_, updateDisplayUnit_noop E _ t3 h, rfl⟩
    exact ctor_unit E ui0 u

/-- Witness of C4: `setModel` with `sampleModel` and with a null model on a new
page, and `updateDisplayUnit` on a page holding `sampleModel`. -/
theorem setModel_updateDisplayUnit_unit_witness :
    (∃ w1, OverviewPage.setModel (sampleExternals true) (sampleWorld true) (some sampleModel)
        1700000000 1700000000 = some w1 ∧
      w1.page.model = some sampleModel ∧
      w1.page.txdelegate.unit = sampleOptionsModel.displayUnit) ∧
    (∃ w1, OverviewPage.updateDisplayUnit (sampleExternals true) (sampleWorldWithModel true)
        1700000090 = some w1 ∧
      w1.page.model = (sampleWorldWithModel true).page.model ∧
      w1.page.txdelegate.unit = sampleOptionsModel.displayUnit) ∧
    OverviewPage.updateDisplayUnit (sampleExternals true) (sampleWorld true) 1700000090
      = some (sampleWorld true) ∧
    (∃ w1, OverviewPage.setModel (sampleExternals true)
        (World.initial (sampleExternals true) sampleUi sampleIndeterminate) none
        1700000000 1700000000 = some w1 ∧
      w1.page.txdelegate.unit = (sampleExternals true).BTC ∧
      OverviewPage.updateDisplayUnit (sampleExternals true) w1 1700000090 = some w1 ∧
      w1.page.txdelegate.unit
        = (World.initial (sampleExternals true) sampleUi sampleIndeterminate).page.txdelegate.unit) :=
  ⟨(setModel_updateDisplayUnit_unit (sampleExternals true) (sampleWorld true)
      (some sampleModel) 1700000000 1700000000 1700000090 sampleUi sampleIndeterminate).1
      sampleModel sampleOptionsModel rfl rfl,
    (setModel_updateDisplayUnit_unit (sampleExternals true) (sampleWorldWithModel true)
      none 1700000000 1700000000 1700000090 sampleUi sampleIndeterminate).2.1
      sampleModel sampleOptionsModel rfl rfl,
    (setModel_updateDisplayUnit_unit (sampleExternals true) (sampleWorld true)
      none 1700000000 1700000000 1700000090 sampleUi sampleIndeterminate).2.2.1
      (by intro m h; cases h),
    (setModel_updateDisplayUnit_unit (sampleExternals true) (sampleWorld true)
      none 1700000000 1700000000 1700000090 sampleUi sampleIndeterminate).2.2.2.2
      (by intro m h; cases h)⟩

/-- C1: on a new page, `sendRequest()` at clock 1700000000 and again one second
later: the second call is less than 60 seconds after the first, it redisplays
the cached prices, and it still issues a GET to the price API, so that two GETs
are issued one second apart. -/
theorem sendRequest_gets_again_within_60_seconds :
    uintSub 1700000001
      (OverviewPage.sendRequest (sampleExternals true) (sampleWorld true) 1700000000).nLastPriceCheck
      < 60 ∧
    requests (OverviewPage.sendRequest (sampleExternals true) (sampleWorld true)
      1700000000).effects = [strURL] ∧
    requests (OverviewPage.sendRequest (sampleExternals true)
      (OverviewPage.sendRequest (sampleExternals true) (sampleWorld true) 1700000000)
      1700000001).effects = [strURL, strURL] ∧
    (OverviewPage.sendRequest (sampleExternals true)
      (OverviewPage.sendRequest (sampleExternals true) (sampleWorld true) 1700000000)
      1700000001).page.ui.labelBtcValue.setTextCalls = 1 := by
  refine ⟨by decide, by decide, by decide, by decide⟩

/-- C7: `handlePriceReply` by error and HTTP status `v`. With a network error,
or `v` outside 200..399, the page and `nLastPriceCheck` are unchanged and no
request is issued. With no error and `200 <= v < 300`, whatever the body,
`labelBtcValue` gets exactly one `setText`, and its text afterwards is
`number(nLastPrice * currentBalance / COIN, 'f', 6) + " BTC / $" +
number(nLastPriceUSD * currentBalance / COIN, 'f', 2) + " USD"` for the cached
prices as they are after the call; each cached price is the one before or a
new one that is `> 0`; nothing but the two cached prices and the text of that
label changes, and no request is issued. With no error and `300 <= v < 400`,
the page is unchanged and exactly one GET is issued, to `reply->url()`
resolved against the redirection target. -/
theorem handlePriceReply_dispatch {D : Type} (E : Externals D) (w : World D)
    (reply : QNetworkReply) :
    ((reply.noError = false ∨ reply.httpStatus < 200 ∨ 400 ≤ reply.httpStatus) →
      OverviewPage.handlePriceReply E w reply
        = { w with effects := w.effects ++ [Effect.deleteLater] } ∧
      requests (OverviewPage.handlePriceReply E w reply).effects = requests w.effects) ∧
    ((reply.noError = true ∧ 200 ≤ reply.httpStatus ∧ reply.httpStatus < 300) →
      (OverviewPage.handlePriceReply E w reply).page.ui.labelBtcValue.text
        = E.number (E.scaled (OverviewPage.handlePriceReply E w reply).page.nLastPrice
              w.page.currentBalance) 'f' 6
          ++ " BTC / $"
          ++ E.number (E.scaled (OverviewPage.handlePriceReply E w reply).page.nLastPriceUSD
              w.page.currentBalance) 'f' 2
          ++ " USD" ∧
      (OverviewPage.handlePriceReply E w reply).page.ui.labelBtcValue.setTextCalls
        = w.page.ui.labelBtcValue.setTextCalls + 1 ∧
      (OverviewPage.handlePriceReply E w reply).page.ui.labelBtcValue.visible
        = w.page.ui.labelBtcValue.visible ∧
      ((OverviewPage.handlePriceReply E w reply).page.nLastPrice = w.page.nLastPrice ∨
        E.gtZero (OverviewPage.handlePriceReply E w reply).page.nLastPrice = true) ∧
      ((OverviewPage.handlePriceReply E w reply).page.nLastPriceUSD = w.page.nLastPriceUSD ∨
        E.gtZero (OverviewPage.handlePriceReply E w reply).page.nLastPriceUSD = true) ∧
      { (OverviewPage.handlePriceReply E w reply).page with
        nLastPrice := w.page.nLastPrice
        nLastPriceUSD := w.page.nLastPriceUSD
        ui := { (OverviewPage.handlePriceReply E w reply).page.ui with
          labelBtcValue := w.page.ui.labelBtcValue } } = w.page ∧
      (OverviewPage.handlePriceReply E w reply).nLastPriceCheck = w.nLastPriceCheck ∧
      (OverviewPage.handlePriceReply E w reply).effects = w.effects ++ [Effect.deleteLater] ∧
      requests (OverviewPage.handlePriceReply E w reply).effects = requests w.effects) ∧
    ((reply.noError = true ∧ 300 ≤ reply.httpStatus ∧ reply.httpStatus < 400) →
      OverviewPage.handlePriceReply E w reply
        = { w with effects := w.effects ++
            [Effect.deleteLater, Effect.get (E.resolved reply.url reply.redirectionTarget)] } ∧
      requests (OverviewPage.handlePriceReply E w reply).effects
        = requests w.effects ++ [E.resolved reply.url reply.redirectionTarget]) := by
  refine ⟨?_, ?_, ?_⟩
  · rintro (h | h | h)
    · simp [OverviewPage.handlePriceReply, h, requests]
    · have h1 : ¬ (200 ≤ reply.httpStatus) := by omega
      have h2 : ¬ (300 ≤ reply.httpStatus) := by omega
      cases reply.noError <;> simp [OverviewPage.handlePriceReply, h1, h2, requests]
    · have h1 : ¬ (reply.httpStatus < 300) := by omega
      have h2 : ¬ (reply.httpStatus < 400) := by omega
      cases reply.noError <;> simp [OverviewPage.handlePriceReply, h1, h2, requests]
  · rintro ⟨he, h1, h2⟩
    have hv : reply.httpStatus ≥ 200 ∧ reply.httpStatus < 300 := ⟨h1, h2⟩
    unfold OverviewPage.handlePriceReply
    simp only [he, hv, and_self, if_true]
    split_ifs with c1 c2 c3 c4 c5 <;>
      simp [OverviewPage.updateBtcValueLabel, QLabel.setText, requests, *]
  · rintro ⟨he, h1, h2⟩
    have h3 : ¬ (reply.httpStatus < 300) := by omega
    simp [OverviewPage.handlePriceReply, he, h1, h2, h3, requests]

/-- Witness of C7: a reply with a network error, a reply with status 200 whose
body gives the prices 6 and 12, and a reply with status 302, on a page with a
balance of one coin and the cached prices 3 and 4. -/
theorem handlePriceReply_dispatch_witness :
    (OverviewPage.handlePriceReply (sampleExternals true) (sampleWorldWithBalance true)
        sampleReplyError
        = { sampleWorldWithBalance true with
            effects := (sampleWorldWithBalance true).effects ++ [Effect.deleteLater] } ∧
      requests (OverviewPage.handlePriceReply (sampleExternals true)
        (sampleWorldWithBalance true) sampleReplyError).effects
        = requests (sampleWorldWithBalance true).effects) ∧
    (OverviewPage.handlePriceReply (sampleExternals true) (sampleWorldWithBalance true)
        sampleReplyOk).page.ui.labelBtcValue.text = "dddddd BTC / $dddddddddddd USD" ∧
    (OverviewPage.handlePriceReply (sampleExternals true) (sampleWorldWithBalance true)
        sampleReplyOk).page.ui.labelBtcValue.setTextCalls
      = (sampleWorldWithBalance true).page.ui.labelBtcValue.setTextCalls + 1 ∧
    requests (OverviewPage.handlePriceReply (sampleExternals true) (sampleWorldWithBalance true)
        sampleReplyRedirect).effects
      = requests (sampleWorldWithBalance true).effects
        ++ [(sampleExternals true).resolved sampleReplyRedirect.url
          sampleReplyRedirect.redirectionTarget] :=
  ⟨(handlePriceReply_dispatch (sampleExternals true) (sampleWorldWithBalance true)
      sampleReplyError).1 (Or.inl rfl),
    (((handlePriceReply_dispatch (sampleExternals true) (sampleWorldWithBalance true)
      sampleReplyOk).2.1 ⟨rfl, by decide, by decide⟩).1).trans (by decide),
    ((handlePriceReply_dispatch (sampleExternals true) (sampleWorldWithBalance true)
      sampleReplyOk).2.1 ⟨rfl, by decide, by decide⟩).2.1,
    ((handlePriceReply_dispatch (sampleExternals true) (sampleWorldWithBalance true)
      sampleReplyRedirect).2.2 ⟨rfl, by decide, by decide⟩).2⟩

end Piecoin
